import Mathlib

/-!
Shallow embedding of `src/server.js` (the InsightTrack Express server
skeleton): the middleware pipeline in its declared order (helmet, cors,
morgan, express.json, express.urlencoded, express-rate-limit), the router
mounts at `/api/customers` and `/api/analytics`, the terminal error handler,
the mongoose startup connection and `app.listen`.  The bodies of the
third-party middlewares are not part of this repository; where a claim
depends on their behaviour, that behaviour is modelled from the
specification (doc comments starting `Modelled from the spec:`).  Everything
else — stage order, the rate-limit configuration, the error-handler
response, the connect callback, the port fallback — is translated directly
from the source.
-/

namespace InsightTrack

/-- Left brace character, by code point. -/
def lbrace : Char := Char.ofNat 123

/-- Right brace character, by code point. -/
def rbrace : Char := Char.ofNat 125

/-- JSON insignificant whitespace. -/
def isWsChar (c : Char) : Bool := c = ' ' || c = '\t' || c = '\n' || c = '\r'

/-- Drop leading JSON whitespace. -/
def skipWs : List Char → List Char
  | [] => []
  | c :: cs => if isWsChar c then skipWs cs else c :: cs

/-- ASCII decimal digit. -/
def isDigitChar (c : Char) : Bool := '0' ≤ c && c ≤ '9'

/-- Consume an expected sequence of characters (tail of `true`, `false`, `null`). -/
def expectChars : List Char → List Char → Option (List Char)
  | [], l => some l
  | _ :: _, [] => none
  | e :: es, c :: cs => if c = e then expectChars es cs else none

/-- Consume the remainder of a JSON string literal, the opening quote already
read; `\` escapes the following character. -/
def parseStringTail : List Char → Option (List Char)
  | [] => none
  | '"' :: cs => some cs
  | '\\' :: [] => none
  | '\\' :: _ :: cs => parseStringTail cs
  | _ :: cs => parseStringTail cs

/-- Consume a JSON number: optional minus, integer digits, optional fraction,
optional exponent. -/
def parseNumber (l : List Char) : Option (List Char) :=
  let l1 := match l with
    | c :: cs => if c = '-' then cs else l
    | [] => l
  match l1.span isDigitChar with
  | ([], _) => none
  | (_ :: _, r1) =>
    let r2opt : Option (List Char) :=
      match r1 with
      | '.' :: t =>
        match t.span isDigitChar with
        | ([], _) => none
        | (_ :: _, r) => some r
      | _ => some r1
    match r2opt with
    | none => none
    | some r2 =>
      match r2 with
      | c :: t =>
        if c = 'e' || c = 'E' then
          let t1 := match t with
            | d :: ds => if d = '+' || d = '-' then ds else t
            | [] => t
          match t1.span isDigitChar with
          | ([], _) => none
          | (_ :: _, r) => some r
        else some r2
      | [] => some r2

mutual

/-- Modelled from the spec: the body parser "deserializes a JSON ... payload";
recursive-descent recognizer for one JSON value, fuelled to make the
recursion structural.  Returns the unconsumed remainder on success. -/
def parseValue : Nat → List Char → Option (List Char)
  | 0, _ => none
  | f + 1, l =>
    match skipWs l with
    | [] => none
    | c :: cs =>
      if c = lbrace then
        match skipWs cs with
        | [] => none
        | c2 :: cs2 => if c2 = rbrace then some cs2 else parseMembers f (c2 :: cs2)
      else if c = '[' then
        match skipWs cs with
        | ']' :: cs2 => some cs2
        | rest => parseElems f rest
      else if c = '"' then parseStringTail cs
      else if c = 't' then expectChars ['r', 'u', 'e'] cs
      else if c = 'f' then expectChars ['a', 'l', 's', 'e'] cs
      else if c = 'n' then expectChars ['u', 'l', 'l'] cs
      else if c = '-' || isDigitChar c then parseNumber (c :: cs)
      else none

/-- Object members: `"key" : value` separated by commas, closed by a brace. -/
def parseMembers : Nat → List Char → Option (List Char)
  | 0, _ => none
  | f + 1, l =>
    match skipWs l with
    | '"' :: cs =>
      match parseStringTail cs with
      | none => none
      | some r1 =>
        match skipWs r1 with
        | ':' :: r2 =>
          match parseValue f r2 with
          | none => none
          | some r3 =>
            match skipWs r3 with
            | [] => none
            | c :: r4 =>
              if c = ',' then parseMembers f r4
              else if c = rbrace then some r4
              else none
        | _ => none
    | _ => none

/-- Array elements: values separated by commas, closed by a bracket. -/
def parseElems : Nat → List Char → Option (List Char)
  | 0, _ => none
  | f + 1, l =>
    match parseValue f l with
    | none => none
    | some r =>
      match skipWs r with
      | ',' :: r2 => parseElems f r2
      | ']' :: r2 => some r2
      | _ => none

end

/-- Modelled from the spec: syntactic validity of a JSON body — the whole
input is exactly one JSON value surrounded by whitespace. -/
def jsonValid (s : String) : Bool :=
  match parseValue (4 * s.length + 8) s.data with
  | some rest => (skipWs rest).isEmpty
  | none => false

/-- One inbound HTTP request as it enters the middleware chain. -/
structure Request where
  method : String
  path : String
  contentType : Option String
  body : String
  client : String
deriving DecidableEq

/-- The response flushed to the client. -/
structure Response where
  status : Nat
  headers : List (String × String)
  body : String
deriving DecidableEq

/-- Modelled from the spec: helmet "adds a fixed set of hardening headers to
every response" (the spec fixes the set abstractly; these are representative
hardening headers). -/
def securityHeaders : List (String × String) :=
  [("X-DNS-Prefetch-Control", "off"),
   ("X-Frame-Options", "SAMEORIGIN"),
   ("X-Content-Type-Options", "nosniff"),
   ("X-Download-Options", "noopen"),
   ("Strict-Transport-Security", "max-age=15552000; includeSubDomains")]

/-- Modelled from the spec: the cross-origin policy is "allow all in the
source", so the cors stage only adds the permissive header and never
short-circuits. -/
def corsHeaders : List (String × String) :=
  [("Access-Control-Allow-Origin", "*")]

/-- Headers present on the response object once the header-setting stages
(helmet, cors) have run. -/
def baseHeaders : List (String × String) := securityHeaders ++ corsHeaders

/-- `windowMs: 15 * 60 * 1000` from the limiter configuration in server.js. -/
def windowMs : Nat := 15 * 60 * 1000

/-- `max: 100` from the limiter configuration in server.js. -/
def maxRequests : Nat := 100

/-- The `message` field of the limiter configuration in server.js. -/
def limitMessage : String := "Too many requests from this IP, please try again later."

/-- Per-client limiter state: client identifier ↦ (window start, hits in
window). -/
abbrev LimiterState := List (String × Nat × Nat)

/-- Modelled from the spec: the rate limiter "tracks request counts per
client identifier ... over a fixed window: 100 requests per 15-minute window
per client; when the limit is exceeded, responds immediately".  Returns
whether the request passes downstream, and the updated state. -/
def limiterStep (st : LimiterState) (client : String) (now : Nat) : Bool × LimiterState :=
  match List.lookup client st with
  | none => (true, (client, now, 1) :: st)
  | some (ws, n) =>
    if windowMs ≤ now - ws then
      (true, (client, now, 1) :: st.eraseP (fun p => p.1 == client))
    else if n < maxRequests then
      (true, (client, ws, n + 1) :: st.eraseP (fun p => p.1 == client))
    else
      (false, st)

/-- The stages of the pipeline, in the order server.js registers them; the
error handler is the terminal stage. -/
inductive Stage
  | secHeaders | corsStage | accessLog | jsonBody | urlencBody
  | limiterStage | routerDispatch | errorStage
deriving DecidableEq

/-- The full registration order of server.js lines 18–51. -/
def stageOrder : List Stage :=
  [Stage.secHeaders, Stage.corsStage, Stage.accessLog, Stage.jsonBody,
   Stage.urlencBody, Stage.limiterStage, Stage.routerDispatch, Stage.errorStage]

/-- Outcome of an external route handler (`./routes/customers` and
`./routes/analytics` are external collaborators, not in the repository):
either a response, or an unhandled failure. -/
inductive HandlerResult
  | ok (status : Nat) (headers : List (String × String)) (body : String)
  | raise (err : String)

/-- The mount prefixes of server.js lines 41–42. -/
def routePrefixes : List String := ["/api/customers", "/api/analytics"]

/-- Modelled from the spec: "Dispatch is prefix-based and first-match". -/
def routeMatches (path : String) : Bool :=
  routePrefixes.any (fun p => List.isPrefixOf p.data path.data)

/-- The exact JSON serialization of the object sent by the error-handling
middleware in server.js lines 47–50. -/
def errorBody : String :=
  "\x7b\"status\":\"error\",\"message\":\"An internal error occurred. Please try again later.\"\x7d"

/-- The error-handling middleware of server.js lines 45–51: log server-side,
then `res.status(500).send(...)` the fixed generic payload.  The failure
detail `err` never reaches the response. -/
def errorHandler (_err : String) (hdrs : List (String × String)) : Response :=
  ⟨500, hdrs, errorBody⟩

/-- What one request produced: the response, the trace of stages that
executed (in execution order), and whether a mounted route handler ran. -/
structure RunResult where
  response : Response
  trace : List Stage
  handlerInvoked : Bool
deriving DecidableEq

/-- One request through the pipeline of server.js: helmet, cors, morgan,
express.json, express.urlencoded, the limiter, then router dispatch; an
unhandled failure from a route handler falls to the error handler.  The
short-circuit behaviour of the body parser ("on malformed input, must
produce a client-error response and short-circuit"), the limiter and the
not-found fallthrough ("if no route matches, the server must produce a
not-found response") are modelled from the spec; the stage order, the
limiter configuration and the error handler are from the source. -/
def runRequest (handler : Request → HandlerResult) (st : LimiterState) (now : Nat)
    (req : Request) : RunResult × LimiterState :=
  if (req.contentType == some "application/json") && !jsonValid req.body then
    (⟨⟨400, baseHeaders, "Invalid JSON payload"⟩,
      [Stage.secHeaders, Stage.corsStage, Stage.accessLog, Stage.jsonBody], false⟩, st)
  else if (limiterStep st req.client now).1 = false then
    (⟨⟨429, baseHeaders, limitMessage⟩,
      [Stage.secHeaders, Stage.corsStage, Stage.accessLog, Stage.jsonBody,
       Stage.urlencBody, Stage.limiterStage], false⟩,
     (limiterStep st req.client now).2)
  else if routeMatches req.path then
    match handler req with
    | HandlerResult.ok s rh b =>
      (⟨⟨s, baseHeaders ++ rh, b⟩,
        [Stage.secHeaders, Stage.corsStage, Stage.accessLog, Stage.jsonBody,
         Stage.urlencBody, Stage.limiterStage, Stage.routerDispatch], true⟩,
       (limiterStep st req.client now).2)
    | HandlerResult.raise e =>
      (⟨errorHandler e baseHeaders,
        [Stage.secHeaders, Stage.corsStage, Stage.accessLog, Stage.jsonBody,
         Stage.urlencBody, Stage.limiterStage, Stage.routerDispatch, Stage.errorStage], true⟩,
       (limiterStep st req.client now).2)
  else
    (⟨⟨404, baseHeaders, "Not Found"⟩,
      [Stage.secHeaders, Stage.corsStage, Stage.accessLog, Stage.jsonBody,
       Stage.urlencBody, Stage.limiterStage, Stage.routerDispatch], false⟩,
     (limiterStep st req.client now).2)

/-- Replay a sequence of timed requests through the pipeline, threading the
limiter state. -/
def runSeq (handler : Request → HandlerResult) (st : LimiterState) :
    List (Nat × Request) → List RunResult × LimiterState
  | [] => ([], st)
  | (t, r) :: rest =>
    ((runRequest handler st t r).1 :: (runSeq handler (runRequest handler st t r).2 rest).1,
     (runSeq handler (runRequest handler st t r).2 rest).2)

/-- A plain GET request from a given client: no body, no content type, aimed
at a mounted route. -/
def getRequest (client : String) : Request :=
  ⟨"GET", "/api/customers", none, "", client⟩

/-- Outcome of the startup connection attempt to the document store. -/
inductive ConnectOutcome
  | success | failure
deriving DecidableEq

/-- Observable startup effects of server.js. -/
inductive Effect
  | connectAttempt (uri : Option String)
  | log (msg : String)
  | listen (port : String)
deriving DecidableEq

/-- The callback passed to `mongoose.connect` in server.js lines 36–38: it
binds no error parameter, so whatever the outcome it only logs the fixed
message. -/
def connectCallback (_outcome : ConnectOutcome) : List Effect :=
  [Effect.log "Connected to database"]

/-- `process.env.PORT || 5000` from server.js line 54: `undefined` and the
empty string are the falsy cases, both yielding the default. -/
def resolvedPort (envPORT : Option String) : String :=
  match envPORT with
  | none => "5000"
  | some s => if s = "" then "5000" else s

/-- The startup effects of server.js in program order: one `mongoose.connect`
call (line 33), one `app.listen` call (line 55), and then whatever the
asynchronous connect callback logs once the attempt resolves with the given
outcome. -/
def startupEffects (envMONGO : Option String) (envPORT : Option String)
    (outcome : ConnectOutcome) : List Effect :=
  [Effect.connectAttempt envMONGO, Effect.listen (resolvedPort envPORT)] ++
    connectCallback outcome

/-- Recognizer for a connection attempt among the startup effects. -/
def isConnectAttempt : Effect → Bool
  | Effect.connectAttempt _ => true
  | _ => false

/-- Recognizer for a console log among the startup effects. -/
def isLogEffect : Effect → Bool
  | Effect.log _ => true
  | _ => false

/-- A route handler that always succeeds, used to instantiate the abstract
external routers in concrete scenarios. -/
def okHandler : Request → HandlerResult := fun _ => HandlerResult.ok 200 [] "ok"

/-- A route handler that always raises an unhandled failure with the given
detail. -/
def raisingHandler (e : String) : Request → HandlerResult :=
  fun _ => HandlerResult.raise e

/-- A POST with a JSON content type and a syntactically invalid JSON body. -/
def malformedReq : Request :=
  ⟨"POST", "/api/customers", some "application/json", "\x7bmalformed", "203.0.113.7"⟩

/-- A GET for a path matching no mounted route. -/
def unknownPathReq : Request :=
  ⟨"GET", "/api/unknown", none, "", "198.51.100.9"⟩

/-! ## Helper lemmas -/

theorem securityHeaders_subset_base : securityHeaders ⊆ baseHeaders :=
  List.subset_append_left _ _

theorem limiterStep_nil (c : String) (t : Nat) :
    limiterStep [] c t = (true, [(c, t, 1)]) := rfl

theorem limiterStep_single_pass (c : String) (ws n now : Nat)
    (hn : n < maxRequests) (hw : now - ws < windowMs) :
    limiterStep [(c, ws, n)] c now = (true, [(c, ws, n + 1)]) := by
  simp [limiterStep, List.lookup, List.eraseP, Nat.not_le.mpr hw, hn]

theorem limiterStep_single_block (c : String) (ws now : Nat)
    (hw : now - ws < windowMs) :
    limiterStep [(c, ws, maxRequests)] c now = (false, [(c, ws, maxRequests)]) := by
  simp [limiterStep, List.lookup, Nat.not_le.mpr hw]

theorem runRequest_get_pass (h : Request → HandlerResult) (st : LimiterState)
    (now : Nat) (c : String) (hpass : (limiterStep st c now).1 = true) :
    Stage.routerDispatch ∈ (runRequest h st now (getRequest c)).1.trace ∧
    (runRequest h st now (getRequest c)).2 = (limiterStep st c now).2 := by
  have hbody : (((getRequest c).contentType == some "application/json")
      && !jsonValid (getRequest c).body) = false := rfl
  have hcli : (getRequest c).client = c := rfl
  have hpath : routeMatches (getRequest c).path = true := by
    have hlit : routeMatches "/api/customers" = true := by decide
    exact hlit
  cases hh : h (getRequest c) with
  | ok s rh b => simp [runRequest, hbody, hcli, hpath, hpass, hh]
  | raise e => simp [runRequest, hbody, hcli, hpath, hpass, hh]

theorem runRequest_get_block (h : Request → HandlerResult) (st : LimiterState)
    (now : Nat) (c : String) (hblock : (limiterStep st c now).1 = false) :
    (runRequest h st now (getRequest c)).1.response.status = 429 ∧
    (runRequest h st now (getRequest c)).1.response.body = limitMessage ∧
    Stage.routerDispatch ∉ (runRequest h st now (getRequest c)).1.trace ∧
    (runRequest h st now (getRequest c)).2 = (limiterStep st c now).2 := by
  have hbody : (((getRequest c).contentType == some "application/json")
      && !jsonValid (getRequest c).body) = false := rfl
  have hcli : (getRequest c).client = c := rfl
  simp [runRequest, hbody, hcli, hblock]

theorem runSeq_fixed_window (h : Request → HandlerResult) (c : String) (t0 : Nat) :
    ∀ (ts : List Nat) (j : Nat), j ≤ maxRequests →
      (∀ t ∈ ts, t - t0 < windowMs) →
      (∀ r ∈ ((runSeq h [(c, t0, j)] (ts.map fun t => (t, getRequest c))).1.take
          (maxRequests - j)), Stage.routerDispatch ∈ r.trace) ∧
      (∀ r ∈ ((runSeq h [(c, t0, j)] (ts.map fun t => (t, getRequest c))).1.drop
          (maxRequests - j)), r.response.status = 429 ∧ r.response.body = limitMessage ∧
          Stage.routerDispatch ∉ r.trace) := by
  intro ts
  induction ts with
  | nil => intro j hj hwin; simp [runSeq]
  | cons t ts ih =>
    intro j hj hwin
    have hw : t - t0 < windowMs := hwin t (List.mem_cons_self _ _)
    have hwin2 : ∀ u ∈ ts, u - t0 < windowMs := fun u hu => hwin u (List.mem_cons_of_mem _ hu)
    by_cases hjlt : j < maxRequests
    · have hstep : limiterStep [(c, t0, j)] c t = (true, [(c, t0, j + 1)]) :=
        limiterStep_single_pass c t0 j t hjlt hw
      have hpass : (limiterStep [(c, t0, j)] c t).1 = true := by rw [hstep]
      obtain ⟨hmem, hst⟩ := runRequest_get_pass h [(c, t0, j)] t c hpass
      have hst2 : (runRequest h [(c, t0, j)] t (getRequest c)).2 = [(c, t0, j + 1)] := by
        rw [hst, hstep]
      have ihj := ih (j + 1) (by omega) hwin2
      have hrs : (runSeq h [(c, t0, j)] (((t :: ts).map fun u => (u, getRequest c)))).1
          = (runRequest h [(c, t0, j)] t (getRequest c)).1
            :: (runSeq h [(c, t0, j + 1)] (ts.map fun u => (u, getRequest c))).1 := by
        simp [runSeq, hst2]
      rw [hrs]
      have hsub : maxRequests - j = (maxRequests - (j + 1)) + 1 := by omega
      rw [hsub, List.take_succ_cons, List.drop_succ_cons]
      constructor
      · intro r hr
        rcases List.mem_cons.mp hr with hr0 | hr1
        · rw [hr0]; exact hmem
        · exact ihj.1 r hr1
      · exact fun r hr => ihj.2 r hr
    · have hjeq : j = maxRequests := by omega
      subst hjeq
      have hstep : limiterStep [(c, t0, maxRequests)] c t = (false, [(c, t0, maxRequests)]) :=
        limiterStep_single_block c t0 t hw
      have hblock : (limiterStep [(c, t0, maxRequests)] c t).1 = false := by rw [hstep]
      obtain ⟨h429, hmsg, hnot, hst⟩ := runRequest_get_block h [(c, t0, maxRequests)] t c hblock
      have hst2 : (runRequest h [(c, t0, maxRequests)] t (getRequest c)).2
          = [(c, t0, maxRequests)] := by rw [hst, hstep]
      have ihj := ih maxRequests (le_refl _) hwin2
      have hrs : (runSeq h [(c, t0, maxRequests)] (((t :: ts).map fun u => (u, getRequest c)))).1
          = (runRequest h [(c, t0, maxRequests)] t (getRequest c)).1
            :: (runSeq h [(c, t0, maxRequests)] (ts.map fun u => (u, getRequest c))).1 := by
        simp [runSeq, hst2]
      rw [hrs]
      simp only [Nat.sub_self, List.take_zero, List.drop_zero] at ihj ⊢
      constructor
      · intro r hr; exact absurd hr (List.not_mem_nil r)
      · intro r hr
        rcases List.mem_cons.mp hr with hr0 | hr1
        · rw [hr0]; exact ⟨h429, hmsg, hnot⟩
        · exact ihj.2 r hr1

/-! ## Claim theorems -/

/-- Claim C1: a request with a JSON content type and a syntactically invalid
JSON body is answered by the body-parser stage with a client-error (4xx)
status; no route handler is invoked and the response is never a 500. -/
theorem malformed_json_short_circuits (h : Request → HandlerResult) (st : LimiterState)
    (now : Nat) (req : Request)
    (hct : req.contentType = some "application/json")
    (hbad : jsonValid req.body = false) :
    (400 ≤ (runRequest h st now req).1.response.status ∧
        (runRequest h st now req).1.response.status < 500) ∧
    (runRequest h st now req).1.handlerInvoked = false ∧
    (runRequest h st now req).1.response.status ≠ 500 := by
  have hcond : ((req.contentType == some "application/json") && !jsonValid req.body)
      = true := by rw [hct, hbad]; rfl
  simp [runRequest, hcond]

/-- Witness for C1: the scenario request with body beginning with a brace and
the word malformed, sent through the pipeline from a fresh state. -/
theorem malformed_json_short_circuits_witness :
    (400 ≤ (runRequest okHandler [] 0 malformedReq).1.response.status ∧
        (runRequest okHandler [] 0 malformedReq).1.response.status < 500) ∧
    (runRequest okHandler [] 0 malformedReq).1.handlerInvoked = false ∧
    (runRequest okHandler [] 0 malformedReq).1.response.status ≠ 500 :=
  malformed_json_short_circuits okHandler [] 0 malformedReq rfl (by decide)

/-- Claim C2: an unhandled failure raised by a route handler reaches the
terminal error handler, which responds 500 with the fixed generic JSON body;
the response is the same whatever the failure detail, so nothing internal
leaks. -/
theorem unhandled_failure_opaque_500 (h : Request → HandlerResult) (st : LimiterState)
    (now : Nat) (req : Request) (e e2 : String)
    (hbody : ((req.contentType == some "application/json") && !jsonValid req.body) = false)
    (hlim : (limiterStep st req.client now).1 = true)
    (hroute : routeMatches req.path = true)
    (hraise : h req = HandlerResult.raise e) :
    (runRequest h st now req).1.response.status = 500 ∧
    (runRequest h st now req).1.response.body = errorBody ∧
    (runRequest h st now req).1.response = errorHandler e2 baseHeaders := by
  simp [runRequest, hbody, hlim, hroute, hraise, errorHandler]

/-- Witness for C2: two different failure details produce the one fixed
500 response. -/
theorem unhandled_failure_opaque_500_witness :
    (runRequest (raisingHandler "db timeout") [] 0 (getRequest "203.0.113.8")).1.response.status
        = 500 ∧
    (runRequest (raisingHandler "db timeout") [] 0 (getRequest "203.0.113.8")).1.response.body
        = errorBody ∧
    (runRequest (raisingHandler "db timeout") [] 0 (getRequest "203.0.113.8")).1.response
        = errorHandler "schema mismatch" baseHeaders :=
  unhandled_failure_opaque_500 (raisingHandler "db timeout") [] 0 (getRequest "203.0.113.8")
    "db timeout" "schema mismatch" rfl rfl (by decide) rfl

/-- Claim C3: with the fixed 15-minute window and limit 100 from the source
configuration, the first 100 requests of a client within a window reach
router dispatch, and every subsequent request of that client in the same
window is answered with status 429 (a 4xx), body equal to the configured
message, without reaching router dispatch. -/
theorem rate_limiter_fixed_window (h : Request → HandlerResult) (client : String)
    (t0 : Nat) (ts : List Nat) (hwin : ∀ t ∈ ts, t - t0 < windowMs) :
    (∀ r ∈ ((runSeq h [] ((t0 :: ts).map fun t => (t, getRequest client))).1.take maxRequests),
        Stage.routerDispatch ∈ r.trace) ∧
    (∀ r ∈ ((runSeq h [] ((t0 :: ts).map fun t => (t, getRequest client))).1.drop maxRequests),
        r.response.status = 429 ∧ r.response.body = limitMessage ∧
        Stage.routerDispatch ∉ r.trace) := by
  have hstep : limiterStep [] client t0 = (true, [(client, t0, 1)]) := limiterStep_nil client t0
  have hpass : (limiterStep [] client t0).1 = true := by rw [hstep]
  obtain ⟨hmem, hst⟩ := runRequest_get_pass h [] t0 client hpass
  have hst2 : (runRequest h [] t0 (getRequest client)).2 = [(client, t0, 1)] := by
    rw [hst, hstep]
  have hrs : (runSeq h [] (((t0 :: ts).map fun u => (u, getRequest client)))).1
      = (runRequest h [] t0 (getRequest client)).1
        :: (runSeq h [(client, t0, 1)] (ts.map fun u => (u, getRequest client))).1 := by
    simp [runSeq, hst2]
  rw [hrs]
  have h100 : maxRequests = 100 := rfl
  have hsub : maxRequests = (maxRequests - 1) + 1 := by omega
  rw [hsub, List.take_succ_cons, List.drop_succ_cons]
  have main := runSeq_fixed_window h client t0 ts 1 (by omega) hwin
  constructor
  · intro r hr
    rcases List.mem_cons.mp hr with hr0 | hr1
    · rw [hr0]; exact hmem
    · exact main.1 r hr1
  · exact fun r hr => main.2 r hr

/-- Witness for C3: 101 requests from one client, all inside one window; the
first 100 reach router dispatch and the 101st is rate-limited. -/
theorem rate_limiter_fixed_window_witness :
    (∀ r ∈ ((runSeq okHandler []
        ((0 :: List.replicate 100 0).map fun t => (t, getRequest "203.0.113.7"))).1.take
        maxRequests), Stage.routerDispatch ∈ r.trace) ∧
    (∀ r ∈ ((runSeq okHandler []
        ((0 :: List.replicate 100 0).map fun t => (t, getRequest "203.0.113.7"))).1.drop
        maxRequests), r.response.status = 429 ∧ r.response.body = limitMessage ∧
        Stage.routerDispatch ∉ r.trace) :=
  rate_limiter_fixed_window okHandler "203.0.113.7" 0 (List.replicate 100 0)
    (fun t ht => by rw [List.eq_of_mem_replicate ht]; decide)

/-- Claim C4: startup makes exactly one connection attempt to the document
store whatever the outcome; on failure the connect callback produces only
console logs — in particular no further connection attempt. -/
theorem connect_once_no_retry (m p : Option String) (o : ConnectOutcome) :
    (startupEffects m p o).countP isConnectAttempt = 1 ∧
    (connectCallback ConnectOutcome.failure).all isLogEffect = true ∧
    (connectCallback ConnectOutcome.failure).countP isConnectAttempt = 0 :=
  ⟨rfl, rfl, rfl⟩

/-- Claim C5: every response the pipeline produces — body-parser
short-circuit, rate-limit short-circuit, route handler response, error
handler response, or not-found — carries all the configured security
headers. -/
theorem responses_carry_security_headers (h : Request → HandlerResult)
    (st : LimiterState) (now : Nat) (req : Request) :
    securityHeaders ⊆ (runRequest h st now req).1.response.headers := by
  unfold runRequest
  split
  · exact securityHeaders_subset_base
  · split
    · exact securityHeaders_subset_base
    · split
      · split
        · exact securityHeaders_subset_base.trans (List.subset_append_left _ _)
        · exact securityHeaders_subset_base
      · exact securityHeaders_subset_base

/-- Claim C6: for every request, the trace of executed stages is a prefix of
the declared registration order — helmet, cors, morgan, json body parser,
urlencoded body parser, rate limiter, router dispatch, error handler — so no
later stage ever runs before an earlier one. -/
theorem middleware_declared_order (h : Request → HandlerResult) (st : LimiterState)
    (now : Nat) (req : Request) :
    (runRequest h st now req).1.trace <+: stageOrder := by
  unfold runRequest
  split
  · exact ⟨[Stage.urlencBody, Stage.limiterStage, Stage.routerDispatch, Stage.errorStage], rfl⟩
  · split
    · exact ⟨[Stage.routerDispatch, Stage.errorStage], rfl⟩
    · split
      · split
        · exact ⟨[Stage.errorStage], rfl⟩
        · exact ⟨[], rfl⟩
      · exact ⟨[Stage.errorStage], rfl⟩

/-- Counterexample for C7 as stated: a request for an unmatched path from a
client that has exhausted its window quota is answered by the rate limiter
with 429, not with a not-found response. -/
theorem unmatched_path_not_always_404 :
    (runRequest okHandler [("198.51.100.9", 0, maxRequests)] 0 unknownPathReq).1.response.status
        = 429 ∧
    ¬ (runRequest okHandler [("198.51.100.9", 0, maxRequests)] 0
        unknownPathReq).1.response.status = 404 := by
  decide

/-- Claim C7 (amended): every request that no earlier middleware stage
short-circuits (its body passes the JSON parse check and the limiter admits
it) and whose path matches no mounted route prefix receives the not-found
response, with no route handler invoked. -/
theorem unmatched_path_not_found (h : Request → HandlerResult) (st : LimiterState)
    (now : Nat) (req : Request)
    (hbody : ((req.contentType == some "application/json") && !jsonValid req.body) = false)
    (hlim : (limiterStep st req.client now).1 = true)
    (hroute : routeMatches req.path = false) :
    (runRequest h st now req).1.response.status = 404 ∧
    (runRequest h st now req).1.response.body = "Not Found" ∧
    (runRequest h st now req).1.handlerInvoked = false := by
  simp [runRequest, hbody, hlim, hroute]

/-- Witness for the amended C7: a fresh client requesting the unknown path
from the scenario receives 404 and no handler runs. -/
theorem unmatched_path_not_found_witness :
    (runRequest okHandler [] 0 unknownPathReq).1.response.status = 404 ∧
    (runRequest okHandler [] 0 unknownPathReq).1.response.body = "Not Found" ∧
    (runRequest okHandler [] 0 unknownPathReq).1.handlerInvoked = false :=
  unmatched_path_not_found okHandler [] 0 unknownPathReq rfl rfl (by decide)

/-- Counterexample for C8 as stated: with PORT present in the environment but
equal to the empty string, the server listens on 5000, not on the value of
PORT. -/
theorem port_empty_env_counterexample :
    Effect.listen "5000" ∈
        startupEffects (some "mongodb://localhost/insighttrack") (some "")
          ConnectOutcome.success ∧
    Effect.listen "" ∉
        startupEffects (some "mongodb://localhost/insighttrack") (some "")
          ConnectOutcome.success := by
  decide

/-- Claim C8 (amended): the server listens on the value of PORT whenever that
value is non-empty; when PORT is absent — or set to the empty string, which
the logical-or fallback of line 54 also treats as unset — it listens on the
default port 5000. -/
theorem port_resolution (m : Option String) (o : ConnectOutcome) (p : String)
    (hp : p ≠ "") :
    Effect.listen p ∈ startupEffects m (some p) o ∧
    Effect.listen "5000" ∈ startupEffects m none o ∧
    Effect.listen "5000" ∈ startupEffects m (some "") o := by
  refine ⟨?_, ?_, ?_⟩ <;> simp [startupEffects, connectCallback, resolvedPort, hp]

/-- Witness for the amended C8: PORT set to 8080 is honoured. -/
theorem port_resolution_witness :
    Effect.listen "8080" ∈ startupEffects none (some "8080") ConnectOutcome.failure ∧
    Effect.listen "5000" ∈ startupEffects none none ConnectOutcome.failure ∧
    Effect.listen "5000" ∈ startupEffects none (some "") ConnectOutcome.failure :=
  port_resolution none ConnectOutcome.failure "8080" (by decide)

/-- Claim C9: the listen effect is present among the startup effects for both
connection outcomes, and the startup effects do not depend on the outcome at
all — a failed connection never aborts startup. -/
theorem listen_unconditional (m p : Option String) (o : ConnectOutcome) :
    Effect.listen (resolvedPort p) ∈ startupEffects m p o ∧
    startupEffects m p ConnectOutcome.failure = startupEffects m p ConnectOutcome.success :=
  ⟨by simp [startupEffects], rfl⟩

/-- Claim C10: the connect callback binds no error parameter, so for either
outcome — success or failure — it produces exactly one log with the fixed
success message; no connection failure is ever logged distinctly. -/
theorem connect_callback_constant (o : ConnectOutcome) :
    connectCallback o = [Effect.log "Connected to database"] := rfl

end InsightTrack
